import Mathlib

/-
Shallow embedding of the Jaggery Store backend (src/main.py and
src/schemas.py).

Monetary values are modelled as exact rationals; Python's round(x, 2) is
modelled as half-to-even rounding of 100 * x.  Pydantic field constraints
that fire during checkout (OrderItem.price ge=0, OrderItem.quantity ge=1,
Order.subtotal/shipping/total ge=0) are modelled as explicit checks whose
failure surfaces as the generic server error, matching the catch-all
exception handler at the end of the checkout route.  The document database
itself (database.py) is not part of the sources; its find/insert contract
is modelled from the specification, sections 4.1 and 4.2.
-/

set_option maxHeartbeats 1000000

attribute [local semireducible] Rat.add Rat.sub Rat.mul Rat.inv Rat.ofScientific

/-- Decidable equality of Except values, so that concrete checkout outcomes
can be evaluated. -/
instance {ε α : Type} [DecidableEq ε] [DecidableEq α] : DecidableEq (Except ε α) := fun x y =>
  match x, y with
  | .error a, .error b =>
    if h : a = b then .isTrue (by rw [h])
    else .isFalse (by intro hc; cases hc; exact h rfl)
  | .ok a, .ok b =>
    if h : a = b then .isTrue (by rw [h])
    else .isFalse (by intro hc; cases hc; exact h rfl)
  | .error _, .ok _ => .isFalse (by intro hc; cases hc)
  | .ok _, .error _ => .isFalse (by intro hc; cases hc)

namespace JaggeryStore

/-- Half-to-even rounding of a rational to an integer, the tie-breaking rule
of Python's built-in round applied to exact values. -/
def roundHalfEven (q : ℚ) : ℤ :=
  if Int.fract q < 1 / 2 then ⌊q⌋
  else if 1 / 2 < Int.fract q then ⌊q⌋ + 1
  else if ⌊q⌋ % 2 = 0 then ⌊q⌋ else ⌊q⌋ + 1

/-- Python round(x, 2): half-to-even rounding at two decimal places. -/
def round2 (q : ℚ) : ℚ := (roundHalfEven (q * 100) : ℚ) / 100

/-- Product record (schemas.py, class Product). -/
structure Product where
  title : String
  description : Option String
  price : ℚ
  category : String
  in_stock : Bool
  image : Option String
  sku : Option String
  weight_g : Option Nat
deriving DecidableEq

/-- Cart line of a checkout request (main.py, class CartItem): quantity is
an arbitrary integer, with no positivity constraint at request parsing. -/
structure CartItem where
  product_id : String
  quantity : ℤ
deriving DecidableEq

/-- Checkout request body (main.py, class CheckoutRequest). -/
structure CheckoutRequest where
  name : String
  email : String
  phone : String
  address_line : String
  city : String
  pincode : String
  payment_method : String
  cart : List CartItem
deriving DecidableEq

/-- Order line snapshot (schemas.py, class OrderItem).  The pydantic
constraints price ge=0 and quantity ge=1 are enforced when the record is
constructed inside the checkout loop. -/
structure OrderItem where
  product_id : String
  title : String
  price : ℚ
  quantity : ℤ
deriving DecidableEq

/-- Persisted order (schemas.py, class Order); subtotal, shipping and total
carry the pydantic constraint ge=0. -/
structure Order where
  customer_name : String
  email : String
  phone : String
  address_line : String
  city : String
  pincode : String
  payment_method : String
  items : List OrderItem
  subtotal : ℚ
  shipping : ℚ
  total : ℚ
  status : String
deriving DecidableEq

/-- Mock payment confirmation returned for card checkouts (main.py 152-154). -/
structure Payment where
  provider : String
  status : String
  transaction_id : String
deriving DecidableEq

/-- Success payload of POST /checkout (main.py line 156). -/
structure CheckoutResult where
  order_id : String
  total : ℚ
  status : String
  payment : Option Payment
deriving DecidableEq

/-- Client-visible failure of checkout: the 404 naming a missing product
(main.py line 123), or the generic 500 produced by the catch-all handler
(main.py lines 159-160). -/
inductive CheckoutError where
  | notFound (product_id : String)
  | serverError
deriving DecidableEq

/-- Modelled from the spec: the document database (database.py is not under
src).  The product and order collections are association lists from the
string form of the store-assigned identifier to the record; insert appends
a record under a caller-supplied fresh identifier and returns it, matching
the contract of spec sections 4.1 and 4.2. -/
structure DB where
  products : List (String × Product)
  orders : List (String × Order)
deriving DecidableEq

/-- Hexadecimal digit, as accepted by bson ObjectId parsing. -/
def isHexChar (c : Char) : Bool :=
  c.isDigit || (('a' ≤ c) && (c ≤ 'f')) || (('A' ≤ c) && (c ≤ 'F'))

/-- Well-formed ObjectId string: 24 hexadecimal characters.  The conversion
at main.py line 114 raises on anything else, which the catch-all handler
turns into the generic 500. -/
def objectIdValid (s : String) : Bool :=
  s.length == 24 && s.data.all isHexChar

/-- Product lookup by string identifier: models product_map.get at main.py
lines 116 and 121.  Store identifiers are unique, so taking the first match
agrees with the dict built from the batch find. -/
def lookupProduct (ps : List (String × Product)) (pid : String) : Option Product :=
  (ps.find? (fun e => e.1 == pid)).map (fun e => e.2)

/-- Per-line failure of the checkout loop: a missing product raises the 404
(main.py line 123); a line violating the OrderItem constraints (price ge=0,
quantity ge=1) raises a pydantic ValidationError, surfaced as the generic
500. -/
inductive LoopErr where
  | notFound (pid : String)
  | invalidItem
deriving DecidableEq

/-- Checkout loop (main.py lines 118-131): in cart order, look each line up,
accumulate the line total into the subtotal and append the OrderItem
snapshot, enforcing the OrderItem field constraints at construction. -/
def cartLoop (lookup : String → Option Product) :
    List CartItem → List OrderItem → ℚ → Except LoopErr (List OrderItem × ℚ)
  | [], items, subtotal => .ok (items, subtotal)
  | ci :: rest, items, subtotal =>
    match lookup ci.product_id with
    | none => .error (.notFound ci.product_id)
    | some prod =>
      if 0 ≤ prod.price ∧ 1 ≤ ci.quantity then
        cartLoop lookup rest
          (items ++ [{ product_id := ci.product_id, title := prod.title,
                       price := prod.price, quantity := ci.quantity }])
          (subtotal + prod.price * (ci.quantity : ℚ))
      else .error .invalidItem

/-- OrderItem snapshot taken from a cart line whose product resolves. -/
def snapshotItem (lookup : String → Option Product) (ci : CartItem) : OrderItem :=
  match lookup ci.product_id with
  | some prod =>
    { product_id := ci.product_id, title := prod.title, price := prod.price,
      quantity := ci.quantity }
  | none =>
    { product_id := ci.product_id, title := "", price := 0,
      quantity := ci.quantity }

/-- Unrounded cart subtotal: the sum of price times quantity over the lines
whose product resolves. -/
def cartSubtotal (lookup : String → Option Product) (cart : List CartItem) : ℚ :=
  (cart.map (fun ci =>
    match lookup ci.product_id with
    | some prod => prod.price * (ci.quantity : ℚ)
    | none => 0)).sum

/-- Order record as constructed at main.py lines 135-148. -/
def mkOrder (payload : CheckoutRequest) (items : List OrderItem)
    (subtotal shipping total : ℚ) : Order :=
  { customer_name := payload.name, email := payload.email,
    phone := payload.phone, address_line := payload.address_line,
    city := payload.city, pincode := payload.pincode,
    payment_method := payload.payment_method, items := items,
    subtotal := subtotal, shipping := shipping, total := total,
    status := if payload.payment_method = "card" then "paid" else "pending" }

/-- POST /checkout (main.py lines 110-160).  The fresh identifier the order
store would assign to the inserted order is passed in as newOrderId.  All
cart identifiers are converted up front (line 114), so one malformed id
fails the whole request with the generic 500 before any lookup; the loop
then resolves and snapshots each line; shipping is a flat 1.0 below an
unrounded subtotal of 10.0 and 0.0 otherwise; the Order is constructed with
subtotal, shipping and total rounded to 2 decimals (its ge=0 constraints
checked), appended to the order collection, and the result echoes the order
total and status with a mock payment object exactly for "card". -/
def checkout (db : DB) (newOrderId : String) (payload : CheckoutRequest) :
    Except CheckoutError CheckoutResult × DB :=
  if payload.cart.all (fun ci => objectIdValid ci.product_id) then
    match cartLoop (lookupProduct db.products) payload.cart [] 0 with
    | .error (.notFound pid) => (.error (.notFound pid), db)
    | .error .invalidItem => (.error .serverError, db)
    | .ok (items, subtotal) =>
      let shipping : ℚ := if 10 ≤ subtotal then 0 else 1
      let total : ℚ := subtotal + shipping
      if 0 ≤ round2 subtotal ∧ 0 ≤ round2 shipping ∧ 0 ≤ round2 total then
        let order := mkOrder payload items (round2 subtotal) (round2 shipping)
          (round2 total)
        (.ok { order_id := newOrderId, total := order.total,
               status := order.status,
               payment :=
                 if payload.payment_method = "card" then
                   some { provider := "mock", status := "succeeded",
                          transaction_id := newOrderId }
                 else none },
         { products := db.products,
           orders := db.orders ++ [(newOrderId, order)] })
      else (.error .serverError, db)
  else (.error .serverError, db)

/-- First hardcoded seed product (main.py lines 60-69). -/
def seedProduct1 : Product :=
  { title := "Jaggery Powder 500g",
    description := some "Pure, chemical-free jaggery powder. Perfect for tea, coffee and cooking.",
    price := 2.49, category := "jaggery", in_stock := true,
    image := some "/jaggery-500.jpg", sku := some "JAG-500",
    weight_g := some 500 }

/-- Second hardcoded seed product (main.py lines 70-79). -/
def seedProduct2 : Product :=
  { title := "Jaggery Powder 1kg",
    description := some "Pure, chemical-free jaggery powder family pack.",
    price := 4.49, category := "jaggery", in_stock := true,
    image := some "/jaggery-1000.jpg", sku := some "JAG-1000",
    weight_g := some 1000 }

/-- Whether a product matches the seed SKU existence query, find with sku
in [JAG-500, JAG-1000] (main.py line 57). -/
def seedSkuMatch (p : Product) : Bool :=
  p.sku == some "JAG-500" || p.sku == some "JAG-1000"

/-- POST /seed (main.py lines 54-84): a no-op reporting 0 inserted when any
seed SKU is already present, otherwise it inserts the two hardcoded
products (under the fresh identifiers the store would assign, passed in)
and reports 2 inserted. -/
def seed_products (db : DB) (id1 id2 : String) : Nat × DB :=
  if db.products.any (fun e => seedSkuMatch e.2) then (0, db)
  else (2, { products := db.products ++ [(id1, seedProduct1), (id2, seedProduct2)],
             orders := db.orders })

/-- Catalog well-formedness: identifiers are distinct well-formed ObjectId
strings (they are string forms of store-assigned _id values) and prices are
non-negative (Product.price carries ge=0 in schemas.py). -/
@[reducible] def CatalogWF (ps : List (String × Product)) : Prop :=
  (ps.map (fun e => e.1)).Nodup
  ∧ ∀ e ∈ ps, objectIdValid e.1 = true ∧ 0 ≤ e.2.price

/-- Well-formed ObjectId string used by the concrete examples. -/
def oidA : String := "0123456789abcdef01234567"

/-- Second well-formed ObjectId string, absent from the demo catalog. -/
def oidB : String := "89abcdef0123456789abcdef"

/-- Demo catalog holding the 500g seed product under a well-formed id. -/
def demoDB : DB := { products := [(oidA, seedProduct1)], orders := [] }

/-- Checkout request with the given payment method and cart over fixed
customer fields. -/
def demoRequest (pm : String) (cart : List CartItem) : CheckoutRequest :=
  { name := "Asha", email := "asha@example.com", phone := "999",
    address_line := "1 Main St", city := "Pune", pincode := "411001",
    payment_method := pm, cart := cart }

/-- Expected persisted order for the demo cash-on-delivery checkout of two
500g packs: subtotal 4.98, shipping 1, total 5.98. -/
def demoOrderCod : Order :=
  mkOrder (demoRequest "cod" [⟨oidA, 2⟩])
    [{ product_id := oidA, title := "Jaggery Powder 500g", price := 2.49,
       quantity := 2 }]
    4.98 1 5.98

/-- Expected result payload for the demo cash-on-delivery checkout. -/
def demoResultCod : CheckoutResult :=
  { order_id := "ord1", total := 5.98, status := "pending", payment := none }

/-- Database state after the demo cash-on-delivery checkout. -/
def demoDBCod : DB :=
  { products := demoDB.products, orders := [("ord1", demoOrderCod)] }

/-- Expected persisted order for the demo card checkout of five 500g packs:
subtotal 12.45 clears the free-shipping threshold. -/
def demoOrderCard : Order :=
  mkOrder (demoRequest "card" [⟨oidA, 5⟩])
    [{ product_id := oidA, title := "Jaggery Powder 500g", price := 2.49,
       quantity := 5 }]
    12.45 0 12.45

/-- Expected result payload for the demo card checkout. -/
def demoResultCard : CheckoutResult :=
  { order_id := "ord2", total := 12.45, status := "paid",
    payment := some { provider := "mock", status := "succeeded",
                      transaction_id := "ord2" } }

/-- Database state after the demo card checkout. -/
def demoDBCard : DB :=
  { products := demoDB.products, orders := [("ord2", demoOrderCard)] }

/-- Unrounded subtotal computed by checkout for a request, as a function of
the catalog: the sum of price times quantity over the cart. -/
def checkoutSubtotal (db : DB) (p : CheckoutRequest) : ℚ :=
  cartSubtotal (lookupProduct db.products) p.cart

/-- Rounding a non-negative rational stays non-negative. -/
theorem roundHalfEven_nonneg (q : ℚ) (h : 0 ≤ q) : 0 ≤ roundHalfEven q := by
  have hf : 0 ≤ ⌊q⌋ := Int.floor_nonneg.mpr h
  unfold roundHalfEven
  split_ifs <;> omega

/-- Two-decimal rounding of a non-negative rational stays non-negative. -/
theorem round2_nonneg (q : ℚ) (h : 0 ≤ q) : 0 ≤ round2 q := by
  have h1 : 0 ≤ roundHalfEven (q * 100) :=
    roundHalfEven_nonneg _ (by positivity)
  have h2 : (0 : ℚ) ≤ (roundHalfEven (q * 100) : ℚ) := by exact_mod_cast h1
  unfold round2
  positivity

/-- Rounding zero gives zero. -/
theorem round2_zero : round2 0 = 0 := by decide

/-- Rounding one gives one. -/
theorem round2_one : round2 1 = 1 := by decide

/-- Shifting by one hundred commutes with half-to-even rounding. -/
theorem roundHalfEven_add_hundred (x : ℚ) :
    roundHalfEven (x + 100) = roundHalfEven x + 100 := by
  unfold roundHalfEven
  have hcast : (100 : ℚ) = ((100 : ℤ) : ℚ) := by norm_num
  rw [hcast, Int.fract_add_int, Int.floor_add_int]
  have hpar : ((⌊x⌋ + 100) % 2 = 0) ↔ (⌊x⌋ % 2 = 0) := by omega
  split_ifs <;> omega

/-- Two-decimal rounding commutes with adding one. -/
theorem round2_add_one (q : ℚ) : round2 (q + 1) = round2 q + 1 := by
  unfold round2
  have h : (q + 1) * 100 = q * 100 + 100 := by ring
  rw [h, roundHalfEven_add_hundred]
  push_cast
  ring

/-- When every cart line resolves to a product with a non-negative price
and a positive quantity, the loop succeeds, appending one snapshot per line
in order and adding the cart subtotal to the accumulator. -/
theorem cartLoop_ok_of_valid (lookup : String → Option Product) :
    ∀ (cart : List CartItem) (acc : List OrderItem) (s : ℚ),
    (∀ ci ∈ cart, ∃ prod, lookup ci.product_id = some prod
      ∧ 0 ≤ prod.price ∧ 1 ≤ ci.quantity) →
    cartLoop lookup cart acc s
      = .ok (acc ++ cart.map (snapshotItem lookup), s + cartSubtotal lookup cart) := by
  intro cart
  induction cart with
  | nil => intro acc s _; simp [cartLoop, cartSubtotal]
  | cons ci rest ih =>
    intro acc s h
    obtain ⟨prod, hp, hpr, hq⟩ := h ci (List.mem_cons_self ci rest)
    have hrest := fun x hx => h x (List.mem_cons_of_mem ci hx)
    simp only [cartLoop, hp]
    rw [if_pos ⟨hpr, hq⟩, ih _ _ hrest]
    simp [snapshotItem, hp, cartSubtotal, List.append_assoc]
    ring

/-- Inversion of a successful loop run: every line resolved with valid
OrderItem fields, the final subtotal is the accumulator plus the cart
subtotal, and the items are the accumulator plus one snapshot per line. -/
theorem cartLoop_ok_inv (lookup : String → Option Product) :
    ∀ (cart : List CartItem) (acc : List OrderItem) (s : ℚ)
      (out : List OrderItem × ℚ),
    cartLoop lookup cart acc s = .ok out →
    (∀ ci ∈ cart, ∃ prod, lookup ci.product_id = some prod
      ∧ 0 ≤ prod.price ∧ 1 ≤ ci.quantity)
    ∧ out.2 = s + cartSubtotal lookup cart
    ∧ out.1 = acc ++ cart.map (snapshotItem lookup) := by
  intro cart
  induction cart with
  | nil =>
    intro acc s out h
    simp [cartLoop] at h
    simp [cartSubtotal, ← h]
  | cons ci rest ih =>
    intro acc s out h
    cases hp : lookup ci.product_id with
    | none => simp [cartLoop, hp] at h
    | some prod =>
      simp only [cartLoop, hp] at h
      split_ifs at h with hv
      · obtain ⟨h1, h2, h3⟩ := ih _ _ _ h
        refine ⟨?_, ?_, ?_⟩
        · intro x hx
          rcases List.mem_cons.mp hx with hx | hx
          · exact ⟨prod, by rw [hx]; exact hp, hv.1, by rw [hx]; exact hv.2⟩
          · exact h1 x hx
        · rw [h2]; simp [cartSubtotal, hp]; ring
        · rw [h3]; simp [snapshotItem, hp, List.append_assoc]

/-- When quantities are positive, prices of resolving lines non-negative,
and some line does not resolve, the loop fails with the 404 of a missing
line. -/
theorem cartLoop_first_missing (lookup : String → Option Product) :
    ∀ (cart : List CartItem) (acc : List OrderItem) (s : ℚ),
    (∀ ci ∈ cart, 1 ≤ ci.quantity) →
    (∀ ci ∈ cart, ∀ prod, lookup ci.product_id = some prod → 0 ≤ prod.price) →
    (∃ ci ∈ cart, lookup ci.product_id = none) →
    ∃ ci ∈ cart, lookup ci.product_id = none
      ∧ cartLoop lookup cart acc s = .error (.notFound ci.product_id) := by
  intro cart
  induction cart with
  | nil => intro acc s _ _ hmiss; simp at hmiss
  | cons ci rest ih =>
    intro acc s hq hpr hmiss
    cases hp : lookup ci.product_id with
    | none =>
      refine ⟨ci, List.mem_cons_self ci rest, hp, ?_⟩
      simp only [cartLoop, hp]
    | some prod =>
      have hmiss' : ∃ cj ∈ rest, lookup cj.product_id = none := by
        obtain ⟨cj, hcj, hnone⟩ := hmiss
        rcases List.mem_cons.mp hcj with hcj | hcj
        · rw [hcj] at hnone; rw [hnone] at hp; cases hp
        · exact ⟨cj, hcj, hnone⟩
      obtain ⟨cj, hcj, hnone, hloop⟩ :=
        ih _ _ (fun x hx => hq x (List.mem_cons_of_mem ci hx))
          (fun x hx => hpr x (List.mem_cons_of_mem ci hx)) hmiss'
      refine ⟨cj, List.mem_cons_of_mem ci hcj, hnone, ?_⟩
      simp only [cartLoop, hp]
      rw [if_pos ⟨hpr ci (List.mem_cons_self ci rest) prod hp,
        hq ci (List.mem_cons_self ci rest)⟩]
      exact hloop

/-- When every line resolves with a non-negative price but some line has a
non-positive quantity, the loop fails with the OrderItem validation error. -/
theorem cartLoop_invalid (lookup : String → Option Product) :
    ∀ (cart : List CartItem) (acc : List OrderItem) (s : ℚ),
    (∀ ci ∈ cart, ∃ prod, lookup ci.product_id = some prod ∧ 0 ≤ prod.price) →
    (∃ ci ∈ cart, ci.quantity ≤ 0) →
    cartLoop lookup cart acc s = .error .invalidItem := by
  intro cart
  induction cart with
  | nil => intro acc s _ hbad; simp at hbad
  | cons ci rest ih =>
    intro acc s hres hbad
    obtain ⟨prod, hp, hpr⟩ := hres ci (List.mem_cons_self ci rest)
    by_cases h1 : 1 ≤ ci.quantity
    · have hbad' : ∃ cj ∈ rest, cj.quantity ≤ 0 := by
        obtain ⟨cj, hcj, hqty⟩ := hbad
        rcases List.mem_cons.mp hcj with hcj | hcj
        · rw [hcj] at hqty; omega
        · exact ⟨cj, hcj, hqty⟩
      simp only [cartLoop, hp]
      rw [if_pos ⟨hpr, h1⟩]
      exact ih _ _ (fun x hx => hres x (List.mem_cons_of_mem ci hx)) hbad'
    · simp only [cartLoop, hp]
      rw [if_neg (fun hc => h1 hc.2)]

/-- A successful string lookup comes from an entry of the catalog. -/
theorem lookupProduct_some_mem {ps : List (String × Product)} {pid : String}
    {prod : Product} (h : lookupProduct ps pid = some prod) :
    ∃ e ∈ ps, e.1 = pid ∧ e.2 = prod := by
  unfold lookupProduct at h
  cases hf : ps.find? (fun e => e.1 == pid) with
  | none => rw [hf] at h; simp at h
  | some e =>
    rw [hf] at h
    simp at h
    have hm := List.mem_of_find?_eq_some hf
    have hp := List.find?_some hf
    simp only [beq_iff_eq] at hp
    exact ⟨e, hm, hp, h⟩

/-- A cart whose lines all resolve with non-negative prices and positive
quantities has a non-negative subtotal. -/
theorem cartSubtotal_nonneg (lookup : String → Option Product)
    (cart : List CartItem)
    (h : ∀ ci ∈ cart, ∃ prod, lookup ci.product_id = some prod
      ∧ 0 ≤ prod.price ∧ 1 ≤ ci.quantity) :
    0 ≤ cartSubtotal lookup cart := by
  unfold cartSubtotal
  apply List.sum_nonneg
  intro x hx
  obtain ⟨ci, hci, hmap⟩ := List.mem_map.mp hx
  obtain ⟨prod, hp, hpr, hq⟩ := h ci hci
  rw [← hmap]
  simp only [hp]
  have hq1 : (1 : ℚ) ≤ (ci.quantity : ℚ) := by exact_mod_cast hq
  exact mul_nonneg hpr (le_trans zero_le_one hq1)

/-- Inversion of a successful checkout: the loop succeeded with the cart
subtotal, and both the persisted order and the returned result are
determined by the request, the subtotal and the flat-rate shipping. -/
theorem checkout_ok_cases (db : DB) (oid : String) (p : CheckoutRequest)
    (r : CheckoutResult) (db' : DB)
    (h : checkout db oid p = (.ok r, db')) :
    ∃ items,
      cartLoop (lookupProduct db.products) p.cart [] 0
        = .ok (items, checkoutSubtotal db p)
      ∧ db' = { products := db.products,
                orders := db.orders ++ [(oid,
                  mkOrder p items (round2 (checkoutSubtotal db p))
                    (round2 (if 10 ≤ checkoutSubtotal db p then 0 else 1))
                    (round2 (checkoutSubtotal db p
                      + (if 10 ≤ checkoutSubtotal db p then 0 else 1))))] }
      ∧ r = { order_id := oid,
              total := round2 (checkoutSubtotal db p
                + (if 10 ≤ checkoutSubtotal db p then 0 else 1)),
              status := if p.payment_method = "card" then "paid" else "pending",
              payment := if p.payment_method = "card"
                then some { provider := "mock", status := "succeeded",
                            transaction_id := oid }
                else none } := by
  simp only [checkoutSubtotal]
  unfold checkout at h
  cases hall : p.cart.all (fun ci => objectIdValid ci.product_id) with
  | false => rw [hall] at h; simp at h
  | true =>
    rw [hall] at h
    rw [if_pos rfl] at h
    cases hcl : cartLoop (lookupProduct db.products) p.cart [] 0 with
    | error e =>
      simp only [hcl] at h
      cases e with
      | notFound pid => simp at h
      | invalidItem => simp at h
    | ok pair =>
      obtain ⟨items, s⟩ := pair
      simp only [hcl] at h
      obtain ⟨hres, hsub, hitems⟩ :=
        cartLoop_ok_inv (lookupProduct db.products) p.cart [] 0 (items, s) hcl
      simp only [zero_add] at hsub
      subst hsub
      have hs0 : 0 ≤ cartSubtotal (lookupProduct db.products) p.cart :=
        cartSubtotal_nonneg _ _ hres
      have hship : (0 : ℚ) ≤ round2
          (if 10 ≤ cartSubtotal (lookupProduct db.products) p.cart then 0 else 1) := by
        split_ifs
        · rw [round2_zero]
        · rw [round2_one]; norm_num
      have htot : (0 : ℚ) ≤ round2 (cartSubtotal (lookupProduct db.products) p.cart
          + (if 10 ≤ cartSubtotal (lookupProduct db.products) p.cart then 0 else 1)) := by
        apply round2_nonneg
        split_ifs <;> linarith
      rw [if_pos ⟨round2_nonneg _ hs0, hship, htot⟩] at h
      simp only [Prod.mk.injEq, Except.ok.injEq] at h
      refine ⟨items, ?_, ?_, ?_⟩
      · rfl
      · exact h.2.symm
      · rw [← h.1]
        simp [mkOrder]

/-- Pointwise relation between a list and its map. -/
theorem forall₂_map_self {α β : Type} (R : α → β → Prop) (f : α → β) :
    ∀ (l : List α), (∀ a ∈ l, R a (f a)) → List.Forall₂ R l (l.map f) := by
  intro l
  induction l with
  | nil => intro _; simp
  | cons a t ih =>
    intro h
    exact List.Forall₂.cons (h a (List.mem_cons_self a t))
      (ih (fun x hx => h x (List.mem_cons_of_mem a hx)))

/-- Over a well-formed catalog, a cart whose lines all resolve resolves to
products with non-negative prices. -/
theorem resolved_prices_nonneg (db : DB) (p : CheckoutRequest)
    (hwf : CatalogWF db.products)
    (hres : ∀ ci ∈ p.cart, (lookupProduct db.products ci.product_id).isSome = true) :
    ∀ ci ∈ p.cart, ∃ prod, lookupProduct db.products ci.product_id = some prod
      ∧ 0 ≤ prod.price := by
  intro ci hci
  obtain ⟨prod, hp⟩ := Option.isSome_iff_exists.mp (hres ci hci)
  obtain ⟨e, he, he1, he2⟩ := lookupProduct_some_mem hp
  exact ⟨prod, hp, he2 ▸ (hwf.2 e he).2⟩

/-- Over a well-formed catalog, a cart whose lines all resolve carries only
well-formed ObjectId strings. -/
theorem resolved_ids_valid (db : DB) (p : CheckoutRequest)
    (hwf : CatalogWF db.products)
    (hres : ∀ ci ∈ p.cart, (lookupProduct db.products ci.product_id).isSome = true) :
    p.cart.all (fun ci => objectIdValid ci.product_id) = true := by
  rw [List.all_eq_true]
  intro ci hci
  obtain ⟨prod, hp⟩ := Option.isSome_iff_exists.mp (hres ci hci)
  obtain ⟨e, he, he1, he2⟩ := lookupProduct_some_mem hp
  exact he1 ▸ (hwf.2 e he).1

/-- Claim C2: for every checkout whose cart lines all resolve and which
completes, the persisted shipping charge is 0.0 when the unrounded
subtotal reaches 10.0 and the flat rate 1.0 otherwise. -/
theorem checkout_shipping_rule (db : DB) (oid : String) (p : CheckoutRequest)
    (r : CheckoutResult) (db' : DB)
    (h : checkout db oid p = (.ok r, db')) :
    ∃ o, db'.orders = db.orders ++ [(oid, o)]
      ∧ o.shipping = (if 10 ≤ checkoutSubtotal db p then (0 : ℚ) else 1) := by
  obtain ⟨items, hcl, hdb, hr⟩ := checkout_ok_cases db oid p r db' h
  refine ⟨_, by rw [hdb], ?_⟩
  simp only [mkOrder]
  split_ifs
  · exact round2_zero
  · exact round2_one

/-- Witness for the shipping rule at a concrete below-threshold checkout. -/
theorem checkout_shipping_rule_witness :
    ∃ o, demoDBCod.orders = demoDB.orders ++ [("ord1", o)]
      ∧ o.shipping = (if 10 ≤ checkoutSubtotal demoDB (demoRequest "cod" [⟨oidA, 2⟩])
          then (0 : ℚ) else 1) :=
  checkout_shipping_rule demoDB "ord1" (demoRequest "cod" [⟨oidA, 2⟩])
    demoResultCod demoDBCod (by decide)

/-- Claim C3: for every successful checkout the stored total equals the
subtotal rounded to 2 decimals plus the shipping rounded to 2 decimals,
with no further rounding; the returned total agrees with the stored one. -/
theorem checkout_total_rounding (db : DB) (oid : String) (p : CheckoutRequest)
    (r : CheckoutResult) (db' : DB)
    (h : checkout db oid p = (.ok r, db')) :
    ∃ o, db'.orders = db.orders ++ [(oid, o)]
      ∧ o.total = round2 (checkoutSubtotal db p)
          + round2 (if 10 ≤ checkoutSubtotal db p then (0 : ℚ) else 1)
      ∧ r.total = o.total := by
  obtain ⟨items, hcl, hdb, hr⟩ := checkout_ok_cases db oid p r db' h
  refine ⟨_, by rw [hdb], ?_, ?_⟩
  · simp only [mkOrder]
    split_ifs
    · rw [add_zero, round2_zero, add_zero]
    · rw [round2_add_one, round2_one]
  · rw [hr]
    simp [mkOrder]

/-- Witness for the total rounding rule at a concrete checkout. -/
theorem checkout_total_rounding_witness :
    ∃ o, demoDBCod.orders = demoDB.orders ++ [("ord1", o)]
      ∧ o.total = round2 (checkoutSubtotal demoDB (demoRequest "cod" [⟨oidA, 2⟩]))
          + round2 (if 10 ≤ checkoutSubtotal demoDB (demoRequest "cod" [⟨oidA, 2⟩])
              then (0 : ℚ) else 1)
      ∧ demoResultCod.total = o.total :=
  checkout_total_rounding demoDB "ord1" (demoRequest "cod" [⟨oidA, 2⟩])
    demoResultCod demoDBCod (by decide)

/-- Claim C4: every successful checkout returns the new order identifier;
when the payment method is exactly "card" the status is "paid" and a mock
payment object carrying that same identifier is returned, and for any
other payment method the status is "pending" with no payment object. -/
theorem checkout_payment_branch (db : DB) (oid : String) (p : CheckoutRequest)
    (r : CheckoutResult) (db' : DB)
    (h : checkout db oid p = (.ok r, db')) :
    r.order_id = oid
    ∧ (p.payment_method = "card" →
        r.status = "paid"
        ∧ r.payment = some (Payment.mk "mock" "succeeded" r.order_id))
    ∧ (p.payment_method ≠ "card" →
        r.status = "pending" ∧ r.payment = none) := by
  obtain ⟨items, hcl, hdb, hr⟩ := checkout_ok_cases db oid p r db' h
  subst hr
  refine ⟨rfl, ?_, ?_⟩
  · intro hc
    simp [hc]
  · intro hc
    simp [hc]

/-- Witness for the payment branch at a concrete card checkout. -/
theorem checkout_payment_branch_witness :
    demoResultCard.order_id = "ord2"
    ∧ ((demoRequest "card" [⟨oidA, 5⟩]).payment_method = "card" →
        demoResultCard.status = "paid"
        ∧ demoResultCard.payment
            = some (Payment.mk "mock" "succeeded" demoResultCard.order_id))
    ∧ ((demoRequest "card" [⟨oidA, 5⟩]).payment_method ≠ "card" →
        demoResultCard.status = "pending" ∧ demoResultCard.payment = none) :=
  checkout_payment_branch demoDB "ord2" (demoRequest "card" [⟨oidA, 5⟩])
    demoResultCard demoDBCard (by decide)

/-- Claim C1 (amended): over a well-formed catalog, for every checkout
request whose cart lines each reference an existing product and each carry
quantity at least 1, checkout persists exactly one order carrying exactly
one OrderItem per cart line, in cart input order, with the product_id, the
product's title and unit price as snapshotted at checkout time, and the
requested quantity; and the persisted subtotal is the sum over the cart of
price times quantity, rounded to 2 decimal places. -/
theorem checkout_snapshots_items (db : DB) (oid : String) (p : CheckoutRequest)
    (hwf : CatalogWF db.products)
    (hres : ∀ ci ∈ p.cart, (lookupProduct db.products ci.product_id).isSome = true)
    (hqty : ∀ ci ∈ p.cart, 1 ≤ ci.quantity) :
    ∃ r o, checkout db oid p
        = (.ok r, { products := db.products, orders := db.orders ++ [(oid, o)] })
      ∧ List.Forall₂ (fun (ci : CartItem) (oi : OrderItem) =>
          oi.product_id = ci.product_id ∧ oi.quantity = ci.quantity
          ∧ ∃ prod, lookupProduct db.products ci.product_id = some prod
              ∧ oi.title = prod.title ∧ oi.price = prod.price) p.cart o.items
      ∧ o.subtotal = round2 (checkoutSubtotal db p) := by
  have hres' : ∀ ci ∈ p.cart, ∃ prod,
      lookupProduct db.products ci.product_id = some prod
      ∧ 0 ≤ prod.price ∧ 1 ≤ ci.quantity := by
    intro ci hci
    obtain ⟨prod, hp, hpr⟩ := resolved_prices_nonneg db p hwf hres ci hci
    exact ⟨prod, hp, hpr, hqty ci hci⟩
  have hall := resolved_ids_valid db p hwf hres
  have hs0 : 0 ≤ cartSubtotal (lookupProduct db.products) p.cart :=
    cartSubtotal_nonneg _ _ hres'
  have hship : (0 : ℚ) ≤ round2
      (if 10 ≤ cartSubtotal (lookupProduct db.products) p.cart then 0 else 1) := by
    split_ifs
    · rw [round2_zero]
    · rw [round2_one]; norm_num
  have htot : (0 : ℚ) ≤ round2 (cartSubtotal (lookupProduct db.products) p.cart
      + (if 10 ≤ cartSubtotal (lookupProduct db.products) p.cart then 0 else 1)) := by
    apply round2_nonneg
    split_ifs <;> linarith
  unfold checkout
  rw [hall, if_pos rfl]
  simp only [cartLoop_ok_of_valid (lookupProduct db.products) p.cart [] 0 hres',
    List.nil_append, zero_add]
  rw [if_pos ⟨round2_nonneg _ hs0, hship, htot⟩]
  refine ⟨_, _, rfl, ?_, ?_⟩
  · apply forall₂_map_self
    intro ci hci
    obtain ⟨prod, hp, _, _⟩ := hres' ci hci
    refine ⟨?_, ?_, prod, hp, ?_, ?_⟩ <;> simp [snapshotItem, hp]
  · simp [mkOrder, checkoutSubtotal]

/-- Counterexample to C1 as stated: every cart line references an existing
product, yet with a zero quantity checkout fails with the generic server
error (the OrderItem snapshot enforces quantity at least 1) and nothing is
persisted. -/
theorem checkout_snapshots_items_counterexample :
    (lookupProduct demoDB.products oidA).isSome = true
    ∧ checkout demoDB "ord1" (demoRequest "cod" [⟨oidA, 0⟩])
        = (.error .serverError, demoDB)
    ∧ (checkout demoDB "ord1" (demoRequest "cod" [⟨oidA, 0⟩])).2.orders = [] :=
  ⟨by decide, by decide, by decide⟩

/-- Witness for the amended C1 at the demo catalog and a two-pack cart. -/
theorem checkout_snapshots_items_witness :
    ∃ r o, checkout demoDB "ord1" (demoRequest "cod" [⟨oidA, 2⟩])
        = (.ok r, { products := demoDB.products,
                    orders := demoDB.orders ++ [("ord1", o)] })
      ∧ List.Forall₂ (fun (ci : CartItem) (oi : OrderItem) =>
          oi.product_id = ci.product_id ∧ oi.quantity = ci.quantity
          ∧ ∃ prod, lookupProduct demoDB.products ci.product_id = some prod
              ∧ oi.title = prod.title ∧ oi.price = prod.price)
          (demoRequest "cod" [⟨oidA, 2⟩]).cart o.items
      ∧ o.subtotal = round2 (checkoutSubtotal demoDB (demoRequest "cod" [⟨oidA, 2⟩])) :=
  checkout_snapshots_items demoDB "ord1" (demoRequest "cod" [⟨oidA, 2⟩])
    (by decide) (by decide) (by decide)

/-- Claim C5 (amended): over a well-formed catalog, for every checkout
request whose cart product identifiers are all well-formed and quantities
all at least 1, if some cart line's product is absent from the catalog then
checkout fails with the 404 naming a missing product identifier and the
database, in particular the order collection, is untouched. -/
theorem checkout_missing_product_404 (db : DB) (oid : String) (p : CheckoutRequest)
    (hwf : CatalogWF db.products)
    (hvalid : ∀ ci ∈ p.cart, objectIdValid ci.product_id = true)
    (hqty : ∀ ci ∈ p.cart, 1 ≤ ci.quantity)
    (hmiss : ∃ ci ∈ p.cart, lookupProduct db.products ci.product_id = none) :
    ∃ ci ∈ p.cart, lookupProduct db.products ci.product_id = none
      ∧ checkout db oid p = (.error (.notFound ci.product_id), db) := by
  have hall := List.all_eq_true.mpr hvalid
  have hpr : ∀ ci ∈ p.cart, ∀ prod,
      lookupProduct db.products ci.product_id = some prod → 0 ≤ prod.price := by
    intro ci _ prod hp
    obtain ⟨e, he, _, he2⟩ := lookupProduct_some_mem hp
    exact he2 ▸ (hwf.2 e he).2
  obtain ⟨ci, hci, hnone, hloop⟩ :=
    cartLoop_first_missing (lookupProduct db.products) p.cart [] 0 hqty hpr hmiss
  refine ⟨ci, hci, hnone, ?_⟩
  unfold checkout
  rw [hall, if_pos rfl]
  simp only [hloop]

/-- Counterexample to C5 as stated: the cart contains a well-formed
product identifier absent from the catalog, yet because an earlier line
carries quantity 0 the checkout fails with the generic server error, not
the 404. -/
theorem checkout_missing_product_counterexample :
    objectIdValid oidB = true
    ∧ lookupProduct demoDB.products oidB = none
    ∧ checkout demoDB "ord1" (demoRequest "cod" [⟨oidA, 0⟩, ⟨oidB, 1⟩])
        = (.error .serverError, demoDB) :=
  ⟨by decide, by decide, by decide⟩

/-- Witness for the amended C5 at a singleton cart over a missing id. -/
theorem checkout_missing_product_404_witness :
    ∃ ci ∈ (demoRequest "cod" [⟨oidB, 1⟩]).cart,
      lookupProduct demoDB.products ci.product_id = none
      ∧ checkout demoDB "ord1" (demoRequest "cod" [⟨oidB, 1⟩])
          = (.error (.notFound ci.product_id), demoDB) :=
  checkout_missing_product_404 demoDB "ord1" (demoRequest "cod" [⟨oidB, 1⟩])
    (by decide) (by decide) (by decide) (by decide)

/-- Claim C6: seeding is idempotent by SKU existence: from a catalog with
no seed SKU, the first call inserts exactly the two hardcoded products and
reports 2, the second call is a no-op reporting 0, and exactly 2 seeded
products are present in total, not 4. -/
theorem seed_products_idempotent (db : DB) (i1 i2 i3 i4 : String)
    (hfresh : ∀ e ∈ db.products, seedSkuMatch e.2 = false) :
    (seed_products db i1 i2).1 = 2
    ∧ (seed_products db i1 i2).2.products
        = db.products ++ [(i1, seedProduct1), (i2, seedProduct2)]
    ∧ seed_products (seed_products db i1 i2).2 i3 i4
        = (0, (seed_products db i1 i2).2)
    ∧ ((seed_products (seed_products db i1 i2).2 i3 i4).2.products.countP
        (fun e => seedSkuMatch e.2)) = 2 := by
  have hany : db.products.any (fun e => seedSkuMatch e.2) = false := by
    cases hc : db.products.any (fun e => seedSkuMatch e.2) with
    | false => rfl
    | true =>
      obtain ⟨e, he, hm⟩ := List.any_eq_true.mp hc
      rw [hfresh e he] at hm
      cases hm
  have h1 : seed_products db i1 i2
      = (2, { products := db.products ++ [(i1, seedProduct1), (i2, seedProduct2)],
              orders := db.orders }) := by
    unfold seed_products
    rw [hany]
    simp
  have hm1 : seedSkuMatch seedProduct1 = true := by decide
  have hm2 : seedSkuMatch seedProduct2 = true := by decide
  have hany2 : ((db.products ++ [(i1, seedProduct1), (i2, seedProduct2)]).any
      (fun e => seedSkuMatch e.2)) = true := by
    rw [List.any_eq_true]
    exact ⟨(i1, seedProduct1), by simp, hm1⟩
  have h2 : seed_products
      { products := db.products ++ [(i1, seedProduct1), (i2, seedProduct2)],
        orders := db.orders } i3 i4
      = (0, { products := db.products ++ [(i1, seedProduct1), (i2, seedProduct2)],
              orders := db.orders }) := by
    unfold seed_products
    rw [hany2]
    simp
  have hcount : db.products.countP (fun e => seedSkuMatch e.2) = 0 := by
    rw [List.countP_eq_zero]
    intro a ha
    simp [hfresh a ha]
  refine ⟨by rw [h1], by rw [h1], by rw [h1]; exact h2, ?_⟩
  rw [h1]
  simp only
  rw [h2]
  simp only
  rw [List.countP_append, hcount]
  simp [List.countP_cons, hm1, hm2]

/-- Witness for seed idempotence from the empty catalog. -/
theorem seed_products_idempotent_witness :
    (seed_products { products := [], orders := [] } "a" "b").1 = 2
    ∧ (seed_products { products := [], orders := [] } "a" "b").2.products
        = [] ++ [("a", seedProduct1), ("b", seedProduct2)]
    ∧ seed_products (seed_products { products := [], orders := [] } "a" "b").2 "c" "d"
        = (0, (seed_products { products := [], orders := [] } "a" "b").2)
    ∧ ((seed_products (seed_products { products := [], orders := [] } "a" "b").2
        "c" "d").2.products.countP (fun e => seedSkuMatch e.2)) = 2 :=
  seed_products_idempotent { products := [], orders := [] } "a" "b" "c" "d"
    (by decide)

/-- Claim C7: checkout never mutates or deletes any product record: the
catalog collection is identical before and after every call, and the order
collection is either untouched or extended by exactly the one new order. -/
theorem checkout_preserves_catalog (db : DB) (oid : String) (p : CheckoutRequest) :
    ((checkout db oid p).2).products = db.products
    ∧ (((checkout db oid p).2).orders = db.orders
       ∨ ∃ o, ((checkout db oid p).2).orders = db.orders ++ [(oid, o)]) := by
  unfold checkout
  cases hall : p.cart.all (fun ci => objectIdValid ci.product_id) with
  | false => simp
  | true =>
    rw [if_pos rfl]
    cases hcl : cartLoop (lookupProduct db.products) p.cart [] 0 with
    | error e =>
      cases e with
      | notFound pid => simp
      | invalidItem => simp
    | ok pair =>
      obtain ⟨items, s⟩ := pair
      dsimp only
      split_ifs <;>
        first
          | exact ⟨rfl, Or.inl rfl⟩
          | exact ⟨rfl, Or.inr ⟨_, rfl⟩⟩

/-- Claim C8 (amended): quantity positivity is not enforced at request
parsing (CartItem admits any integer), but checkout does not process such
an order: over a well-formed catalog, when every line resolves and some
line carries quantity at most 0, checkout fails with the generic server
error raised by the OrderItem snapshot constraint, and nothing is
persisted. -/
theorem checkout_rejects_nonpositive_quantity (db : DB) (oid : String)
    (p : CheckoutRequest)
    (hwf : CatalogWF db.products)
    (hres : ∀ ci ∈ p.cart, (lookupProduct db.products ci.product_id).isSome = true)
    (hbad : ∃ ci ∈ p.cart, ci.quantity ≤ 0) :
    checkout db oid p = (.error .serverError, db) := by
  have hres' := resolved_prices_nonneg db p hwf hres
  have hall := resolved_ids_valid db p hwf hres
  unfold checkout
  rw [hall, if_pos rfl]
  simp only [cartLoop_invalid (lookupProduct db.products) p.cart [] 0 hres' hbad]

/-- Counterexample to C8 as stated: the single cart line references an
existing product with quantity 0, yet the checkout arithmetic does not
accept the line: the call is rejected with the generic server error and no
order is persisted. -/
theorem checkout_nonpositive_quantity_counterexample :
    (lookupProduct demoDB.products oidA).isSome = true
    ∧ checkout demoDB "ord1" (demoRequest "cod" [⟨oidA, -3⟩])
        = (.error .serverError, demoDB)
    ∧ (checkout demoDB "ord1" (demoRequest "cod" [⟨oidA, -3⟩])).2 = demoDB :=
  ⟨by decide, by decide, by decide⟩

/-- Witness for the amended C8 at a zero-quantity cart line. -/
theorem checkout_rejects_nonpositive_quantity_witness :
    checkout demoDB "ord8" (demoRequest "cod" [⟨oidA, 0⟩])
      = (.error .serverError, demoDB) :=
  checkout_rejects_nonpositive_quantity demoDB "ord8"
    (demoRequest "cod" [⟨oidA, 0⟩]) (by decide) (by decide) (by decide)

/-- Claim C9: a checkout request with an empty cart is not rejected: it
persists an order with no items, subtotal 0, shipping 1 and total 1, and
returns a success result with that total. -/
theorem checkout_empty_cart_succeeds (db : DB) (oid : String) (p : CheckoutRequest)
    (h : p.cart = []) :
    ∃ r o, checkout db oid p
        = (.ok r, { products := db.products, orders := db.orders ++ [(oid, o)] })
      ∧ o.items = [] ∧ o.subtotal = 0 ∧ o.shipping = 1 ∧ o.total = 1
      ∧ r.total = 1 := by
  have h10 : ¬ (10 : ℚ) ≤ 0 := by norm_num
  unfold checkout
  rw [h]
  simp only [List.all_nil, if_true]
  simp only [cartLoop]
  rw [if_neg h10]
  rw [zero_add, round2_zero, round2_one]
  rw [if_pos (by norm_num : (0:ℚ) ≤ 0 ∧ (0:ℚ) ≤ 1 ∧ (0:ℚ) ≤ 1)]
  refine ⟨_, _, rfl, ?_, ?_, ?_, ?_, ?_⟩ <;> simp [mkOrder]

/-- Witness for the empty-cart checkout at the demo catalog. -/
theorem checkout_empty_cart_succeeds_witness :
    ∃ r o, checkout demoDB "ord9" (demoRequest "cod" [])
        = (.ok r, { products := demoDB.products,
                    orders := demoDB.orders ++ [("ord9", o)] })
      ∧ o.items = [] ∧ o.subtotal = 0 ∧ o.shipping = 1 ∧ o.total = 1
      ∧ r.total = 1 :=
  checkout_empty_cart_succeeds demoDB "ord9" (demoRequest "cod" []) rfl

/-- Claim C10: a cart line whose product identifier is not a well-formed
ObjectId makes checkout fail with the generic server error raised by the
up-front identifier conversion, not the 404, and leaves the database, in
particular the order collection, untouched. -/
theorem checkout_malformed_id_rejected (db : DB) (oid : String)
    (p : CheckoutRequest)
    (h : ∃ ci ∈ p.cart, objectIdValid ci.product_id = false) :
    checkout db oid p = (.error .serverError, db) := by
  have hall : p.cart.all (fun ci => objectIdValid ci.product_id) = false := by
    obtain ⟨ci, hci, hbad⟩ := h
    cases hc : p.cart.all (fun ci => objectIdValid ci.product_id) with
    | false => rfl
    | true =>
      have := List.all_eq_true.mp hc ci hci
      rw [hbad] at this
      cases this
  unfold checkout
  rw [hall]
  simp

/-- Witness for the malformed-identifier rejection. -/
theorem checkout_malformed_id_rejected_witness :
    checkout demoDB "ord1" (demoRequest "cod" [⟨"zz", 1⟩])
      = (.error .serverError, demoDB) :=
  checkout_malformed_id_rejected demoDB "ord1" (demoRequest "cod" [⟨"zz", 1⟩])
    (by decide)

end JaggeryStore
